import Mathlib

/-
Verification of the core transactional layer of the tobi_backend repository
(core/models.py, core/views.py) against its natural-language specification.

Money amounts (Django DecimalField values) are modelled as exact rationals,
dates and datetimes as integers (day granularity, matching timedelta(days=n)
arithmetic in the source).  Each Django view mutation is embedded as a pure
function on an explicit State record; a fetched-row save is modelled as
replacing the row matched by primary key with the modified fetched object,
which is exactly the semantics of Django Model.save on autocommit.
-/

namespace Tobi

/-- Embedding of core.models.User (the only persisted balance field is
shortlet_credit; the model defines no wallet_balance field). -/
structure User where
  id : Nat
  email : String
  role : String
  is_verified : Bool
  membership_tier : Option String
  membership_expires_at : Option Int
  shortlet_credit : Rat
deriving Repr, DecidableEq

/-- Embedding of core.models.Property. -/
structure Property where
  id : Nat
  agent : Nat
  price : Rat
  property_type : String
  cost_price : Option Rat
  is_approved : Bool
deriving Repr, DecidableEq

/-- Embedding of core.models.Booking. -/
structure Booking where
  id : Nat
  user : Nat
  property : Nat
  start_date : Int
  end_date : Int
  total_price : Rat
  is_cancelled : Bool
  is_paid : Bool
  tx_ref : String
deriving Repr, DecidableEq

/-- Embedding of core.models.Commission. -/
structure Commission where
  agent : Nat
  booking : Nat
  amount : Rat
  withdrawal_requested : Bool
  is_withdrawn : Bool
deriving Repr, DecidableEq

/-- Embedding of core.models.Gift. -/
structure Gift where
  id : Nat
  sender : Nat
  recipient_email : String
  recipient_user : Option Nat
  property : Nat
  status : String
  expires_at : Option Int
  reassigned_to : Option Nat
  converted_to_credit : Bool
deriving Repr, DecidableEq

/-- Embedding of core.models.Investment. -/
structure Investment where
  id : Nat
  investor : Nat
  property : Nat
  payment_plan : String
  total_price : Rat
  amount_paid : Rat
  remaining_balance : Rat
  status : String
  tx_ref : String
deriving Repr, DecidableEq

/-- The persistent store: one table per core model. -/
structure State where
  users : List User
  properties : List Property
  bookings : List Booking
  commissions : List Commission
  gifts : List Gift
  investments : List Investment
deriving Repr, DecidableEq

/-- Save of a user row fetched by primary key. -/
def State.updateUser (s : State) (i : Nat) (f : User → User) : State :=
  { s with users := s.users.map fun u => if u.id == i then f u else u }

/-- Save of a booking row fetched by primary key. -/
def State.updateBooking (s : State) (i : Nat) (f : Booking → Booking) : State :=
  { s with bookings := s.bookings.map fun b => if b.id == i then f b else b }

/-- Save of a gift row fetched by primary key. -/
def State.updateGift (s : State) (i : Nat) (f : Gift → Gift) : State :=
  { s with gifts := s.gifts.map fun g => if g.id == i then f g else g }

/-- Save of an investment row fetched by primary key. -/
def State.updateInvestment (s : State) (i : Nat) (f : Investment → Investment) : State :=
  { s with investments := s.investments.map fun v => if v.id == i then f v else v }

/-- Outcomes of MarkBookingAsPaidView.post (the second, effective class
definition in core/views.py, the one imported by core/urls.py). -/
inductive MarkPaidResult where
  | notFound
  | alreadyPaid
  | paid (commissionAmount : Rat)
deriving Repr, DecidableEq

/-- Embedding of MarkBookingAsPaidView.post (core/views.py lines 193-222):
fetch the booking; if already paid answer without touching state; otherwise
set is_paid, save, and create one Commission for the listing agent at
total_price * Decimal("0.10").  The property row always exists for a stored
booking (foreign key), so the notFound fallback there is unreachable in the
database. -/
def markBookingAsPaid (s : State) (booking_id : Nat) : State × MarkPaidResult :=
  match s.bookings.find? (fun b => b.id == booking_id) with
  | none => (s, .notFound)
  | some booking =>
    if booking.is_paid then (s, .alreadyPaid)
    else
      let s1 := s.updateBooking booking.id (fun _ => { booking with is_paid := true })
      match s.properties.find? (fun p => p.id == booking.property) with
      | none => (s1, .notFound)
      | some prop =>
        let commission_amount := booking.total_price * ((10 : Rat) / 100)
        ({ s1 with commissions := s1.commissions ++
            [{ agent := prop.agent, booking := booking.id, amount := commission_amount,
               withdrawal_requested := false, is_withdrawn := false }] },
         .paid commission_amount)

/-- Outcomes of FlutterwaveWebhookView.post. -/
inductive WebhookResult where
  | ignoredEvent
  | notSuccessful
  | bookingPaid
  | investmentCompleted
  | noMatch
deriving Repr, DecidableEq

/-- Second half of FlutterwaveWebhookView.post (core/views.py lines 841-857):
match the reference against Investment.tx_ref; if the investment is not yet
fully paid, settle it and grant the investor Platinum membership. -/
def webhookInvestmentStep (s : State) (tx_ref : String) (now : Int) : State × WebhookResult :=
  match s.investments.find? (fun v => v.tx_ref == tx_ref) with
  | some inv =>
    if inv.amount_paid < inv.total_price then
      let s1 := s.updateUser inv.investor (fun u =>
        { u with membership_tier := some "Platinum",
                 membership_expires_at := some (now + 365),
                 is_verified := true })
      let s2 := s1.updateInvestment inv.id (fun _ =>
        { inv with amount_paid := inv.total_price, remaining_balance := 0,
                   status := "completed" })
      (s2, .investmentCompleted)
    else (s, .noMatch)
  | none => (s, .noMatch)

/-- Embedding of FlutterwaveWebhookView.post (core/views.py lines 818-857):
ignore non charge.completed events and unsuccessful payments; match the
reference against Booking.tx_ref first (marking an unpaid booking paid,
without creating any Commission), then fall through to the investment
branch when the booking is absent or already paid. -/
def flutterwaveWebhook (s : State) (event tx_ref pay_status : String) (now : Int) :
    State × WebhookResult :=
  if event ≠ "charge.completed" then (s, .ignoredEvent)
  else if pay_status ≠ "successful" then (s, .notSuccessful)
  else
    match s.bookings.find? (fun b => b.tx_ref == tx_ref) with
    | some booking =>
      if !booking.is_paid then
        (s.updateBooking booking.id (fun _ => { booking with is_paid := true }), .bookingPaid)
      else
        webhookInvestmentStep s tx_ref now
    | none => webhookInvestmentStep s tx_ref now

/-- Failure branches of BookingCreateView.perform_create.  integrityFailed is
the database rejecting the insert through the (property, start_date,
end_date) unique_together constraint of core.models.Booking after the credit
debit was already saved. -/
inductive BookingError where
  | notFound
  | notAvailable
  | dateConflict
  | invalidRange
  | insufficientCredit
  | integrityFailed
deriving Repr, DecidableEq

/-- The overlap queryset of BookingCreateView.perform_create (core/views.py
lines 149-154): any booking on the listing with is_cancelled = False,
start_date < end and end_date > start. -/
def overlapExists (s : State) (pid : Nat) (start_d end_d : Int) : Bool :=
  s.bookings.any fun b =>
    b.property == pid && b.is_cancelled == false &&
    decide (b.start_date < end_d) && decide (b.end_date > start_d)

/-- Embedding of BookingCreateView.perform_create (core/views.py lines
138-175).  The acting user and the listing are looked up by id; the fresh
uuid reference and the new row id are passed in as parameters.  The checks
run in source order: approval and shortlet type, overlap, positive night
count, then the credit test `if user.shortlet_credit and
user.shortlet_credit >= total_price` (Decimal truthiness: a zero balance is
falsy).  On the credit path the debit is saved first; the subsequent insert
can still be rejected by the (property, start_date, end_date) uniqueness
constraint, in which case the debit has already been committed. -/
def createBooking (s : State) (uid pid : Nat) (start_d end_d : Int)
    (tx_ref : String) (new_id : Nat) : State × Except BookingError Booking :=
  match s.properties.find? (fun p => p.id == pid),
        s.users.find? (fun u => u.id == uid) with
  | some prop, some user =>
    if ¬ prop.is_approved ∨ prop.property_type ≠ "shortlet" then
      (s, .error .notAvailable)
    else if overlapExists s pid start_d end_d then
      (s, .error .dateConflict)
    else
      let days : Int := end_d - start_d
      if days ≤ 0 then (s, .error .invalidRange)
      else
        let total_price : Rat := (days : Rat) * prop.price
        if user.shortlet_credit ≠ 0 ∧ user.shortlet_credit ≥ total_price then
          let s1 := s.updateUser user.id (fun _ =>
            { user with shortlet_credit := user.shortlet_credit - total_price })
          if s.bookings.any (fun b =>
              b.property == pid && decide (b.start_date = start_d) &&
              decide (b.end_date = end_d)) then
            (s1, .error .integrityFailed)
          else
            let b : Booking :=
              { id := new_id, user := uid, property := pid,
                start_date := start_d, end_date := end_d,
                total_price := total_price, is_cancelled := false,
                is_paid := true, tx_ref := tx_ref }
            ({ s1 with bookings := s1.bookings ++ [b] }, .ok b)
        else (s, .error .insufficientCredit)
  | _, _ => (s, .error .notFound)

/-- Predicate selecting the queryset of ExpireOldGiftsView.post
(core/views.py lines 290-294): pending gifts on shortlet listings whose
expires_at is strictly before now (a NULL expires_at never matches an
SQL __lt filter). -/
def giftSelected (s : State) (now : Int) (g : Gift) : Bool :=
  (match s.properties.find? (fun p => p.id == g.property) with
   | some p => p.property_type == "shortlet"
   | none => false) &&
  (match g.expires_at with
   | some t => decide (t < now)
   | none => false) &&
  g.status == "pending"

/-- The per-gift loop of ExpireOldGiftsView.post (core/views.py lines
296-307) over the queryset snapshot.  Each gift is first saved as expired.
The conversion branch then evaluates gift.sender.wallet_balance, an
attribute the User model does not define (core/models.py has only
shortlet_credit), so Python raises AttributeError there and the request
aborts: the result none models that abort, with every save made so far
already committed and no credit ever granted. -/
def expireGo (s : State) (gs : List Gift) (expired converted : Nat) :
    State × Option (Nat × Nat) :=
  match gs with
  | [] => (s, some (expired, converted))
  | g :: rest =>
    let s1 := s.updateGift g.id (fun _ => { g with status := "expired" })
    if g.reassigned_to = none ∧ g.converted_to_credit = false then
      (s1, none)
    else expireGo s1 rest (expired + 1) converted

/-- Embedding of ExpireOldGiftsView.post (core/views.py lines 281-312).
some (expired, converted) is the success response; none is the
AttributeError abort described at expireGo. -/
def expireOldGifts (s : State) (now : Int) : State × Option (Nat × Nat) :=
  expireGo s (s.gifts.filter (giftSelected s now)) 0 0

/-- Outcomes of ReassignGiftView.post. -/
inductive ReassignResult where
  | notFound
  | alreadyReassigned
  | reassigned
deriving Repr, DecidableEq

/-- Embedding of ReassignGiftView.post (core/views.py lines 314-333): the
gift is fetched filtered by id, sender and pending status; the guard
`if gift.reassigned_to` only fires when the stored target is non-null; the
new email is resolved to a user (possibly none) and recipient_email,
recipient_user and reassigned_to are overwritten together. -/
def reassignGift (s : State) (uid gid : Nat) (new_email : String) :
    State × ReassignResult :=
  match s.gifts.find? (fun g =>
      g.id == gid && g.sender == uid && g.status == "pending") with
  | none => (s, .notFound)
  | some gift =>
    if gift.reassigned_to ≠ none then (s, .alreadyReassigned)
    else
      let new_recipient := (s.users.find? (fun u => u.email == new_email)).map (·.id)
      (s.updateGift gift.id (fun _ =>
        { gift with recipient_email := new_email, recipient_user := new_recipient,
                    reassigned_to := new_recipient }), .reassigned)

/-- Failure branches of CreateInvestmentView.perform_create.
duplicateInvestment is the database rejecting the insert through the
(investor, property) unique_together constraint of core.models.Investment;
because the investor field of InvestmentSerializer is read-only with no
default, no serializer-level uniqueness validator runs, so this rejection
happens only at insert time, after user.save() has already committed the
membership changes. -/
inductive InvestmentError where
  | notFound
  | notInvestor
  | notApproved
  | noCostPrice
  | invalidPlan
  | duplicateInvestment
deriving Repr, DecidableEq

/-- Tail of CreateInvestmentView.perform_create (core/views.py lines
370-379): save the mutated user row, then attempt the insert, which the
(investor, property) uniqueness constraint may reject. -/
def investmentCommit (s : State) (user : User) (pid : Nat) (plan : String)
    (total_price amount_paid remaining : Rat) (tier : Option String)
    (expires : Int) (credit : Rat) (tx_ref : String) (new_id : Nat) :
    State × Except InvestmentError Investment :=
  let s1 := s.updateUser user.id (fun _ =>
    { user with membership_tier := tier, membership_expires_at := some expires,
                shortlet_credit := credit })
  if s.investments.any (fun v => v.investor == user.id && v.property == pid) then
    (s1, .error .duplicateInvestment)
  else
    let inv : Investment :=
      { id := new_id, investor := user.id, property := pid, payment_plan := plan,
        total_price := total_price, amount_paid := amount_paid,
        remaining_balance := remaining, status := "active", tx_ref := tx_ref }
    ({ s1 with investments := s1.investments ++ [inv] }, .ok inv)

/-- Embedding of CreateInvestmentView.perform_create (core/views.py lines
340-379).  `if not property.cost_price` under Decimal truthiness rejects
both a missing and a zero cost price.  The created row takes the model
default status "active": InvestmentSerializer lists status as read-only and
perform_create never sets it.  The membership mutation is saved before the
insert is attempted, so a duplicate (investor, property) failure leaves the
membership changes committed. -/
def createInvestment (s : State) (uid pid : Nat) (plan : String) (now : Int)
    (tx_ref : String) (new_id : Nat) : State × Except InvestmentError Investment :=
  match s.users.find? (fun u => u.id == uid),
        s.properties.find? (fun p => p.id == pid) with
  | some user, some prop =>
    if user.role ≠ "INVESTOR" then (s, .error .notInvestor)
    else if ¬ prop.is_approved then (s, .error .notApproved)
    else if prop.cost_price = none ∨ prop.cost_price = some 0 then
      (s, .error .noCostPrice)
    else
      let total_price := prop.cost_price.getD 0
      if plan = "full" then
        investmentCommit s user pid plan total_price total_price 0
          (some "Platinum") (now + 365) user.shortlet_credit tx_ref new_id
      else if plan = "installment" then
        let amount_paid := total_price * ((60 : Rat) / 100)
        investmentCommit s user pid plan total_price amount_paid
          (total_price - amount_paid) (some "Gold") (now + 365) 5000000 tx_ref new_id
      else (s, .error .invalidPlan)
  | _, _ => (s, .error .notFound)

/-- Failure branches of TopUpInvestmentView.post. -/
inductive TopUpError where
  | invalidAmount
  | notFound
  | alreadyCompleted
  | exceedsBalance
deriving Repr, DecidableEq

/-- Embedding of TopUpInvestmentView.post (core/views.py lines 381-418).
Checks in source order: non-positive amount, lookup filtered by id and
investor, completed status, amount above the remaining balance.  On success
the amount moves from remaining_balance to amount_paid; exactly when the new
remaining balance is zero the status becomes completed, the investor is
granted Platinum membership for 365 days and shortlet_credit is wiped. -/
def topUpInvestment (s : State) (uid iid : Nat) (amount : Rat) (now : Int) :
    State × Except TopUpError (Rat × String) :=
  if amount ≤ 0 then (s, .error .invalidAmount)
  else
    match s.investments.find? (fun v => v.id == iid && v.investor == uid) with
    | none => (s, .error .notFound)
    | some inv =>
      if inv.status = "completed" then (s, .error .alreadyCompleted)
      else if amount > inv.remaining_balance then (s, .error .exceedsBalance)
      else
        let inv1 := { inv with amount_paid := inv.amount_paid + amount,
                               remaining_balance := inv.remaining_balance - amount }
        if inv1.remaining_balance = 0 then
          let inv2 := { inv1 with status := "completed" }
          let s1 := s.updateUser uid (fun u =>
            { u with membership_tier := some "Platinum",
                     membership_expires_at := some (now + 365),
                     shortlet_credit := 0 })
          (s1.updateInvestment inv.id (fun _ => inv2), .ok (inv2.remaining_balance, inv2.status))
        else
          (s.updateInvestment inv.id (fun _ => inv1), .ok (inv1.remaining_balance, inv1.status))

/-
Generic lemmas about find? over a primary-key style conditional map, used to
reason about a second lookup after a save. -/

/-- After replacing the matched row, a find? that located that row locates
its replacement, provided the row test t singles it out (primary-key
uniqueness) and the replacement still satisfies the search predicate. -/
theorem find?_map_single {α : Type} (p t : α → Bool) (f : α → α) (l : List α) (a : α)
    (hfind : l.find? p = some a)
    (hpres : ∀ x ∈ l, t x = true → x = a)
    (ht : t a = true)
    (hpf : p (f a) = true) :
    (l.map fun x => if t x then f x else x).find? p = some (f a) := by
  induction l with
  | nil => simp at hfind
  | cons x xs ih =>
    by_cases hpx : p x
    · rw [List.find?_cons_of_pos _ hpx] at hfind
      have hax : x = a := Option.some.inj hfind
      have hmap : (x :: xs).map (fun z => if t z then f z else z) =
          f x :: xs.map (fun z => if t z then f z else z) := by
        have htx : t x = true := by rw [hax]; exact ht
        simp [htx]
      rw [hmap, hax]
      exact List.find?_cons_of_pos _ hpf
    · rw [List.find?_cons_of_neg _ (by simpa using hpx)] at hfind
      have hpa : p a = true := List.find?_some hfind
      have htx : t x = false := by
        by_contra hcon
        have hxa := hpres x (List.mem_cons_self _ _) (by simpa using hcon)
        subst hxa
        exact hpx hpa
      have hmap : (x :: xs).map (fun z => if t z then f z else z) =
          x :: xs.map (fun z => if t z then f z else z) := by simp [htx]
      rw [hmap]
      rw [List.find?_cons_of_neg _ (by simpa using hpx)]
      exact ih hfind (fun y hy => hpres y (List.mem_cons_of_mem _ hy))

/-- A conditional map whose replacement never satisfies the search predicate
when the original did not keeps find? at none. -/
theorem find?_map_none {α : Type} (p t : α → Bool) (f : α → α) (l : List α)
    (hnone : l.find? p = none)
    (hpf : ∀ x, p x = false → p (f x) = false) :
    (l.map fun x => if t x then f x else x).find? p = none := by
  rw [List.find?_eq_none] at hnone ⊢
  intro y hy
  rcases List.mem_map.mp hy with ⟨x, hx, hxy⟩
  by_cases htx : t x
  · have hyx : y = f x := by rw [← hxy]; simp [htx]
    rw [hyx]
    have hx0 := hnone x hx
    simpa using hpf x (by simpa using hx0)
  · have hyx : y = x := by rw [← hxy]; simp [htx]
    rw [hyx]
    exact hnone x hx

/-- Primary-key uniqueness transfers pointwise: two rows of a table with
Nodup keys that share a key are the same row. -/
theorem key_inj {α : Type} (key : α → Nat) (l : List α) (h : (l.map key).Nodup)
    {x y : α} (hx : x ∈ l) (hy : y ∈ l) (hk : key x = key y) : x = y :=
  List.inj_on_of_nodup_map h hx hy hk

/-
Concrete fixture rows, used by witnesses and counterexamples. -/

/-- A customer with 30000 of shortlet credit. -/
def exCustomer : User :=
  ⟨1, "customer@example.com", "CUSTOMER", false, none, none, 30000⟩

/-- A verified agent. -/
def exAgent : User := ⟨2, "agent@example.com", "AGENT", true, none, none, 0⟩

/-- An investor with no membership and no credit. -/
def exInvestor : User := ⟨3, "investor@example.com", "INVESTOR", false, none, none, 0⟩

/-- An approved shortlet listing of the agent at 10000 per night. -/
def exShortlet : Property := ⟨1, 2, 10000, "shortlet", none, true⟩

/-- An approved investment listing with cost price 1000000. -/
def exInvProperty : Property := ⟨9, 2, 0, "investment", some 1000000, true⟩

/-- An approved shortlet listing at 50000 per night, used for gifting. -/
def exGiftProperty : Property := ⟨4, 2, 50000, "shortlet", none, true⟩

/-- Base store holding the fixture users and listings. -/
def exBase : State :=
  ⟨[exCustomer, exAgent, exInvestor], [exShortlet, exInvProperty, exGiftProperty],
   [], [], [], []⟩

/-- An unpaid stored booking of the customer on the shortlet listing. -/
def exUnpaidBooking : Booking := ⟨5, 1, 1, 0, 3, 30000, false, false, "t5"⟩

/-- Store with the single unpaid booking. -/
def exStateUnpaid : State := { exBase with bookings := [exUnpaidBooking] }

/-- A pending shortlet gift from the customer, expiring at time 7, never
reassigned and not converted. -/
def exGift : Gift :=
  ⟨1, 1, "recipient@example.com", none, 4, "pending", some 7, none, false⟩

/-- Store with the single pending gift. -/
def exStateGift : State := { exBase with gifts := [exGift] }

/-- An existing installment investment of the investor on the investment
listing. -/
def exExistingInv : Investment :=
  ⟨1, 3, 9, "installment", 1000000, 600000, 400000, "active", "TI-1"⟩

/-- Store in which the investor already holds an investment on listing 9. -/
def exStateDup : State := { exBase with investments := [exExistingInv] }

/-- A customer with zero shortlet credit. -/
def exZeroUser : User := ⟨7, "zero@example.com", "CUSTOMER", false, none, none, 0⟩

/-- An approved shortlet listing whose nightly price is zero. -/
def exZeroProperty : Property := ⟨8, 2, 0, "shortlet", none, true⟩

/-- Store pairing the zero-credit customer with the zero-price listing. -/
def exStateZero : State :=
  { exBase with users := [exZeroUser, exAgent], properties := [exZeroProperty] }

/-
Helper facts about the operations. -/

/-- expireGo never touches the users table: the conversion branch aborts
before any user save. -/
theorem expireGo_users_unchanged : ∀ (gs : List Gift) (s : State) (e c : Nat),
    (expireGo s gs e c).1.users = s.users := by
  intro gs
  induction gs with
  | nil => intro s e c; rfl
  | cons g rest ih =>
    intro s e c
    rw [expireGo]
    by_cases h : g.reassigned_to = none ∧ g.converted_to_credit = false
    · rw [if_pos h]; rfl
    · rw [if_neg h]
      exact ih _ _ _

/-- The webhook never creates, removes or alters a Commission row in any of
its branches. -/
theorem webhook_commissions_unchanged (s : State) (e r st : String) (n : Int) :
    (flutterwaveWebhook s e r st n).1.commissions = s.commissions := by
  unfold flutterwaveWebhook webhookInvestmentStep
  repeat' split
  all_goals rfl

/-- Claim C2 (code bug): the batch expiry operation marks each selected
pending shortlet gift expired, but its credit-conversion branch reads
gift.sender.wallet_balance, an attribute the User model does not define, so
the request aborts with AttributeError before any user save: no user row is
ever changed by gift expiry and converted_to_credit stays false, against the
claimed credit of the listing price to the sender. -/
theorem claim2_expiry_never_credits_sender :
    (∀ s now, (expireOldGifts s now).1.users = s.users) ∧
    (expireOldGifts exStateGift 8).2 = none ∧
    (expireOldGifts exStateGift 8).1.users = exStateGift.users ∧
    (expireOldGifts exStateGift 8).1.gifts.map Gift.status = ["expired"] ∧
    (expireOldGifts exStateGift 8).1.gifts.map Gift.converted_to_credit = [false] := by
  refine ⟨fun s now => expireGo_users_unchanged _ _ _ _, by decide, by decide,
    by decide, by decide⟩

/-- Claim C1 counterexample: a webhook reconciliation matching an unpaid
booking by its transaction reference transitions it to paid yet creates no
Commission row at all. -/
theorem claim1_counterexample :
    exStateUnpaid.bookings.map Booking.is_paid = [false] ∧
    (flutterwaveWebhook exStateUnpaid "charge.completed" "t5" "successful" 0).1.bookings.map
        Booking.is_paid = [true] ∧
    (flutterwaveWebhook exStateUnpaid "charge.completed" "t5" "successful" 0).1.commissions
        = [] := by
  refine ⟨by decide, by decide, by decide⟩

/-- Claim C1 amended: the admin markPaid operation is idempotent, and on the
first transition of a booking to paid it creates exactly one Commission for
the listing agent at 10 percent of the total price; the webhook
reconciliation path also marks a matched unpaid booking paid but never
creates a Commission. -/
theorem claim1_amended (s : State) (bid : Nat) (b : Booking) (p : Property)
    (hb : s.bookings.find? (fun x => x.id == bid) = some b)
    (hp : s.properties.find? (fun x => x.id == b.property) = some p)
    (event r st : String) (now : Int) :
    (b.is_paid = true → markBookingAsPaid s bid = (s, .alreadyPaid)) ∧
    (b.is_paid = false →
      markBookingAsPaid s bid =
        ({ s.updateBooking b.id (fun _ => { b with is_paid := true }) with
            commissions := s.commissions ++
              [{ agent := p.agent, booking := b.id,
                 amount := b.total_price * ((10 : Rat) / 100),
                 withdrawal_requested := false, is_withdrawn := false }] },
         .paid (b.total_price * ((10 : Rat) / 100)))) ∧
    (flutterwaveWebhook s event r st now).1.commissions = s.commissions := by
  refine ⟨?_, ?_, webhook_commissions_unchanged s event r st now⟩
  · intro hpaid
    simp only [markBookingAsPaid, hb, hpaid, if_true]
  · intro hunpaid
    simp only [markBookingAsPaid, hb, hunpaid, if_false, hp]
    rfl

/-- Witness for claim1_amended at the unpaid fixture booking: the admin
operation marks it paid and accrues one commission of 10 percent of the
30000 total. -/
theorem claim1_amended_witness :
    markBookingAsPaid exStateUnpaid 5 =
      ({ exStateUnpaid.updateBooking exUnpaidBooking.id
           (fun _ => { exUnpaidBooking with is_paid := true }) with
         commissions := exStateUnpaid.commissions ++
           [{ agent := exShortlet.agent, booking := exUnpaidBooking.id,
              amount := exUnpaidBooking.total_price * ((10 : Rat) / 100),
              withdrawal_requested := false, is_withdrawn := false }] },
       .paid (exUnpaidBooking.total_price * ((10 : Rat) / 100))) :=
  (claim1_amended exStateUnpaid 5 exUnpaidBooking exShortlet rfl rfl
    "charge.completed" "t5" "successful" 0).2.1 rfl

/-- Claim C3 counterexample: the full-plan investment on the approved
fixture listing with cost price 1000000 is created with status active, the
model default, not completed. -/
theorem claim3_counterexample :
    (createInvestment exBase 3 9 "full" 0 "TobiInvest-1" 1).2.toOption.map
        Investment.status = some "active" ∧
    (createInvestment exBase 3 9 "full" 0 "TobiInvest-1" 1).2.toOption.map
        Investment.status ≠ some "completed" := by
  refine ⟨by decide, by decide⟩

/-- Claim C3 amended: creating a full-plan investment on an approved listing
with a nonzero cost price yields an investment whose amount_paid equals the
cost price, whose remaining balance is 0 and whose stored status is the
model default active (not completed), and grants the investor Platinum
membership expiring 365 days from now, leaving the credit balance
untouched. -/
theorem claim3_amended (s : State) (uid pid : Nat) (now : Int) (r : String) (iid : Nat)
    (u : User) (p : Property) (c : Rat)
    (hu : s.users.find? (fun x => x.id == uid) = some u)
    (hp : s.properties.find? (fun x => x.id == pid) = some p)
    (hrole : u.role = "INVESTOR")
    (happ : p.is_approved = true)
    (hc : p.cost_price = some c)
    (hc0 : c ≠ 0)
    (hdup : s.investments.any (fun v => v.investor == u.id && v.property == pid) = false) :
    createInvestment s uid pid "full" now r iid =
      ({ s.updateUser u.id (fun _ =>
           { u with membership_tier := some "Platinum",
                    membership_expires_at := some (now + 365),
                    shortlet_credit := u.shortlet_credit }) with
         investments := s.investments ++
           [⟨iid, u.id, pid, "full", c, c, 0, "active", r⟩] },
       .ok ⟨iid, u.id, pid, "full", c, c, 0, "active", r⟩) := by
  simp only [createInvestment, hu, hp]
  rw [if_neg (by simp [hrole]), if_neg (by simp [happ]),
    if_neg (by simp [hc, hc0]), if_pos trivial]
  rw [investmentCommit, if_neg (by simp [hdup])]
  simp only [hc, Option.getD_some]
  rfl

/-- Witness for claim3_amended on the fixture investor and listing. -/
theorem claim3_amended_witness :
    createInvestment exBase 3 9 "full" 0 "TobiInvest-9" 77 =
      ({ exBase.updateUser exInvestor.id (fun _ =>
           { exInvestor with membership_tier := some "Platinum",
                             membership_expires_at := some ((0 : Int) + 365),
                             shortlet_credit := exInvestor.shortlet_credit }) with
         investments := exBase.investments ++
           [⟨77, exInvestor.id, 9, "full", 1000000, 1000000, 0, "active", "TobiInvest-9"⟩] },
       .ok ⟨77, exInvestor.id, 9, "full", 1000000, 1000000, 0, "active", "TobiInvest-9"⟩) :=
  claim3_amended exBase 3 9 0 "TobiInvest-9" 77 exInvestor exInvProperty 1000000
    rfl rfl rfl rfl rfl (by norm_num) rfl

/-- Claim C4 counterexample: a createInvestment call rejected by the
(investor, listing) uniqueness constraint still leaves the investor promoted
to Platinum membership, because the user row is saved before the insert is
attempted; only the Investment table is unchanged. -/
theorem claim4_counterexample :
    (createInvestment exStateDup 3 9 "full" 0 "TobiInvest-2" 2).2 =
        .error .duplicateInvestment ∧
    ((createInvestment exStateDup 3 9 "full" 0 "TobiInvest-2" 2).1.users.find?
        (fun x => x.id == 3)).map User.membership_tier = some (some "Platinum") ∧
    (exStateDup.users.find? (fun x => x.id == 3)).map User.membership_tier
        = some none ∧
    (createInvestment exStateDup 3 9 "full" 0 "TobiInvest-2" 2).1.investments
        = exStateDup.investments := by
  refine ⟨by rfl, by decide, by decide, by decide⟩

/-- Claim C4 amended: a createInvestment invocation that fails before the
membership write (wrong role, unapproved listing, missing or zero cost
price, invalid plan, unknown ids) leaves all state unchanged; an invocation
rejected by the (investor, listing) uniqueness constraint creates no
Investment but leaves the investor membership fields, and for the
installment plan the 5000000 credit grant, already committed. -/
theorem claim4_amended (s : State) (uid pid : Nat) (plan : String) (now : Int)
    (r : String) (iid : Nat) :
    (∀ st e, createInvestment s uid pid plan now r iid = (st, .error e) →
        e ≠ .duplicateInvestment → st = s) ∧
    (∀ u st e, s.users.find? (fun x => x.id == uid) = some u →
        createInvestment s uid pid plan now r iid = (st, .error e) →
        e = .duplicateInvestment →
        st.investments = s.investments ∧
        st = s.updateUser u.id (fun _ =>
          { u with
            membership_tier := if plan = "full" then some "Platinum" else some "Gold",
            membership_expires_at := some (now + 365),
            shortlet_credit := if plan = "full" then u.shortlet_credit
                               else 5000000 })) := by
  constructor
  · intro st e h hne
    unfold createInvestment investmentCommit at h
    repeat' split at h
    all_goals simp_all [Prod.ext_iff]
  · intro u st e hu h hdupe
    subst hdupe
    unfold createInvestment investmentCommit at h
    rw [hu] at h
    repeat' split at h
    all_goals simp_all [Prod.ext_iff, State.updateUser]
    all_goals rw [← h]

/-- Witness for claim4_amended at the duplicate-investment fixture. -/
theorem claim4_amended_witness :
    (createInvestment exStateDup 3 9 "full" 0 "TobiInvest-2" 2).1.investments
        = exStateDup.investments ∧
    (createInvestment exStateDup 3 9 "full" 0 "TobiInvest-2" 2).1 =
      exStateDup.updateUser exInvestor.id (fun _ =>
        { exInvestor with
          membership_tier := if "full" = "full" then some "Platinum" else some "Gold",
          membership_expires_at := some ((0 : Int) + 365),
          shortlet_credit := if "full" = "full" then exInvestor.shortlet_credit
                             else 5000000 }) :=
  (claim4_amended exStateDup 3 9 "full" 0 "TobiInvest-2" 2).2 exInvestor
    (createInvestment exStateDup 3 9 "full" 0 "TobiInvest-2" 2).1 .duplicateInvestment
    rfl (by rfl) rfl

/-- Claim C9 counterexample: after a first successful reassignment whose new
email resolves to no registered account, reassigned_to stays null, so a
second reassignment of the same pending gift succeeds instead of failing
with AlreadyReassigned. -/
theorem claim9_counterexample :
    (reassignGift exStateGift 1 1 "nobody@example.com").2 = .reassigned ∧
    (reassignGift (reassignGift exStateGift 1 1 "nobody@example.com").1 1 1
        "other@example.com").2 = .reassigned ∧
    (reassignGift (reassignGift exStateGift 1 1 "nobody@example.com").1 1 1
        "other@example.com").2 ≠ .alreadyReassigned := by
  refine ⟨by decide, by decide, by decide⟩

/-- Claim C9 amended: reassignment acts only on a pending gift of the acting
sender; it fails with AlreadyReassigned exactly when the stored reassignment
target is non-null, which a reassignment establishes only if its new email
resolves to a registered account; a successful reassignment overwrites
recipient_email, recipient_user and reassigned_to together, and when the
email does not resolve the gift can be reassigned again later. -/
theorem claim9_amended (s : State) (uid gid : Nat) (em em2 : String) :
    (s.gifts.find? (fun g => g.id == gid && g.sender == uid && g.status == "pending")
        = none → reassignGift s uid gid em = (s, .notFound)) ∧
    (∀ g, s.gifts.find? (fun g => g.id == gid && g.sender == uid && g.status == "pending")
        = some g →
      (g.reassigned_to ≠ none → reassignGift s uid gid em = (s, .alreadyReassigned)) ∧
      (g.reassigned_to = none →
        reassignGift s uid gid em =
          (s.updateGift g.id (fun _ =>
             { g with recipient_email := em,
                      recipient_user := (s.users.find? (fun u => u.email == em)).map (·.id),
                      reassigned_to := (s.users.find? (fun u => u.email == em)).map (·.id) }),
           .reassigned)) ∧
      (g.reassigned_to = none →
        s.users.find? (fun u => u.email == em) = none →
        (s.gifts.map Gift.id).Nodup →
        (reassignGift (reassignGift s uid gid em).1 uid gid em2).2 = .reassigned)) := by
  constructor
  · intro hnone
    simp only [reassignGift, hnone]
  · intro g hg
    refine ⟨?_, ?_, ?_⟩
    · intro hr
      simp only [reassignGift, hg, if_pos hr]
    · intro hr
      simp only [reassignGift, hg]
      rw [if_neg (by simp [hr])]
    · intro hr hem hnodup
      have hpg := List.find?_some hg
      have h1 : reassignGift s uid gid em =
          (s.updateGift g.id (fun _ =>
             { g with recipient_email := em, recipient_user := none,
                      reassigned_to := none }),
           .reassigned) := by
        simp only [reassignGift, hg]
        rw [if_neg (by simp [hr])]
        simp [hem]
      rw [h1]
      have hfind2 := find?_map_single
        (fun x : Gift => x.id == gid && x.sender == uid && x.status == "pending")
        (fun x : Gift => x.id == g.id)
        (fun _ => { g with recipient_email := em, recipient_user := none,
                           reassigned_to := none })
        s.gifts g hg
        (fun x hx hxe => key_inj Gift.id s.gifts hnodup hx
          (List.mem_of_find?_eq_some hg) (by simpa using hxe))
        (by simp)
        (by simpa using hpg)
      simp only [reassignGift, State.updateGift]
      rw [hfind2]
      simp

/-- Witness for claim9_amended on the fixture pending gift with an
unregistered recipient email: the first reassignment succeeds and the second
one succeeds again. -/
theorem claim9_amended_witness :
    (reassignGift (reassignGift exStateGift 1 1 "nobody@example.com").1 1 1
        "other@example.com").2 = .reassigned :=
  (((claim9_amended exStateGift 1 1 "nobody@example.com" "other@example.com").2
      exGift rfl).2.2) rfl rfl (by decide)

/-- Claim C7 counterexample: a valid request (approved shortlet listing,
end after start) on a zero-price listing by a zero-credit account satisfies
credit at least total (0 at least 0), yet creation fails with insufficient
credit, because the source guards the comparison with Decimal truthiness of
the balance. -/
theorem claim7_counterexample :
    exZeroProperty.is_approved = true ∧
    exZeroProperty.property_type = "shortlet" ∧
    exZeroUser.shortlet_credit ≥ (3 : Rat) * exZeroProperty.price ∧
    (createBooking exStateZero 7 8 0 3 "TobiTx-z" 1).2 = .error .insufficientCredit ∧
    (createBooking exStateZero 7 8 0 3 "TobiTx-z" 1).1 = exStateZero := by
  refine ⟨by decide, by decide, by norm_num [exZeroUser, exZeroProperty], by rfl, by rfl⟩

/-- Claim C7 amended: under the listing and date checks, with no stored
booking holding the identical (listing, start, end) tuple, the booking is
created exactly when the account credit is nonzero and at least
nights times price; then the credit is debited by exactly the total and the
booking is stored as paid with the supplied reference; otherwise the
operation fails with insufficient credit and no state changes. -/
theorem claim7_amended (s : State) (uid pid : Nat) (start_d end_d : Int)
    (r : String) (bid : Nat) (p : Property) (u : User)
    (hp : s.properties.find? (fun x => x.id == pid) = some p)
    (hu : s.users.find? (fun x => x.id == uid) = some u)
    (happ : p.is_approved = true) (htype : p.property_type = "shortlet")
    (hdays : start_d < end_d)
    (hnoover : overlapExists s pid start_d end_d = false)
    (hnotuple : s.bookings.any (fun b => b.property == pid &&
        decide (b.start_date = start_d) && decide (b.end_date = end_d)) = false) :
    ((u.shortlet_credit ≠ 0 ∧
        u.shortlet_credit ≥ ((end_d - start_d : Int) : Rat) * p.price) →
      createBooking s uid pid start_d end_d r bid =
        ({ s.updateUser u.id (fun _ =>
             { u with shortlet_credit :=
                 u.shortlet_credit - ((end_d - start_d : Int) : Rat) * p.price }) with
           bookings := s.bookings ++
             [⟨bid, uid, pid, start_d, end_d,
               ((end_d - start_d : Int) : Rat) * p.price, false, true, r⟩] },
         .ok ⟨bid, uid, pid, start_d, end_d,
               ((end_d - start_d : Int) : Rat) * p.price, false, true, r⟩)) ∧
    (¬(u.shortlet_credit ≠ 0 ∧
        u.shortlet_credit ≥ ((end_d - start_d : Int) : Rat) * p.price) →
      createBooking s uid pid start_d end_d r bid = (s, .error .insufficientCredit)) := by
  constructor
  · intro hcred
    simp only [createBooking, hp, hu]
    rw [if_neg (by simp [happ, htype]), if_neg (by simp [hnoover]),
      if_neg (by omega), if_pos hcred, if_neg (by simp [hnotuple])]
    rfl
  · intro hcred
    simp only [createBooking, hp, hu]
    rw [if_neg (by simp [happ, htype]), if_neg (by simp [hnoover]),
      if_neg (by omega), if_neg hcred]

/-- Witness for claim7_amended: three nights at 10000 with credit 30000
succeed and debit the credit to zero. -/
theorem claim7_amended_witness :
    createBooking exBase 1 1 0 3 "TobiTx-w" 11 =
      ({ exBase.updateUser exCustomer.id (fun _ =>
           { exCustomer with shortlet_credit :=
               exCustomer.shortlet_credit - ((3 - 0 : Int) : Rat) * exShortlet.price }) with
         bookings := exBase.bookings ++
           [⟨11, 1, 1, 0, 3, ((3 - 0 : Int) : Rat) * exShortlet.price, false, true,
             "TobiTx-w"⟩] },
       .ok ⟨11, 1, 1, 0, 3, ((3 - 0 : Int) : Rat) * exShortlet.price, false, true,
             "TobiTx-w"⟩) :=
  (claim7_amended exBase 1 1 0 3 "TobiTx-w" 11 exShortlet exCustomer rfl rfl rfl rfl
    (by norm_num) rfl rfl).1 (by constructor <;> norm_num [exCustomer, exShortlet])

/-- The overlap queryset matches exactly the active bookings on the listing
overlapping the half-open range. -/
theorem overlapExists_iff (s : State) (pid : Nat) (a b : Int) :
    overlapExists s pid a b = true ↔
      ∃ x ∈ s.bookings, x.property = pid ∧ x.is_cancelled = false ∧
        x.start_date < b ∧ x.end_date > a := by
  simp [overlapExists, List.any_eq_true, and_assoc]

/-- Inversion of a successful booking creation: the stored row carries the
request fields with is_paid true, the overlap check was negative, the night
count positive, and the new state differs from the old only in users (the
debit) and the appended booking. -/
theorem createBooking_ok (s : State) (uid pid : Nat) (start_d end_d : Int)
    (r : String) (bid : Nat) (st : State) (b : Booking)
    (h : createBooking s uid pid start_d end_d r bid = (st, .ok b)) :
    b.id = bid ∧ b.user = uid ∧ b.property = pid ∧ b.start_date = start_d ∧
    b.end_date = end_d ∧ b.is_cancelled = false ∧ b.is_paid = true ∧
    b.tx_ref = r ∧
    overlapExists s pid start_d end_d = false ∧
    ¬ end_d - start_d ≤ 0 ∧
    st.bookings = s.bookings ++ [b] ∧
    st.properties = s.properties ∧
    st.commissions = s.commissions ∧
    st.gifts = s.gifts ∧
    st.investments = s.investments := by
  unfold createBooking at h
  dsimp only at h
  repeat' split at h
  all_goals (rw [Prod.ext_iff] at h; obtain ⟨h1, h2⟩ := h; dsimp only at h1 h2)
  any_goals exact Except.noConfusion h2
  injection h2 with hb
  subst hb
  subst h1
  refine ⟨rfl, rfl, rfl, rfl, rfl, rfl, rfl, rfl, by simp_all, by assumption,
    rfl, rfl, rfl, rfl, rfl⟩

/-- The date ranges of the active bookings of any listing are pairwise
non-overlapping under the half-open test. -/
def activeNonOverlapping (s : State) (q : Nat) : Prop :=
  ∀ b1 ∈ s.bookings, ∀ b2 ∈ s.bookings,
    b1.property = q → b2.property = q →
    b1.is_cancelled = false → b2.is_cancelled = false → b1 ≠ b2 →
    ¬ (b1.start_date < b2.end_date ∧ b1.end_date > b2.start_date)

/-- Claim C6: under the listing checks, booking creation fails with a date
conflict exactly when some active booking of the listing overlaps the
requested half-open range; a successful creation preserves pairwise
non-overlap of the active bookings of every listing; and when every active
booking of the listing ends on or before the requested start day, no date
conflict arises. -/
theorem claim6_date_conflict (s : State) (uid pid : Nat) (start_d end_d : Int)
    (r : String) (bid : Nat) (p : Property) (u : User)
    (hp : s.properties.find? (fun x => x.id == pid) = some p)
    (hu : s.users.find? (fun x => x.id == uid) = some u)
    (happ : p.is_approved = true) (htype : p.property_type = "shortlet") :
    ((createBooking s uid pid start_d end_d r bid).2 = .error .dateConflict ↔
      ∃ x ∈ s.bookings, x.property = pid ∧ x.is_cancelled = false ∧
        x.start_date < end_d ∧ x.end_date > start_d) ∧
    (∀ st b, createBooking s uid pid start_d end_d r bid = (st, .ok b) →
      ∀ q, activeNonOverlapping s q → activeNonOverlapping st q) ∧
    ((∀ x ∈ s.bookings, x.property = pid → x.is_cancelled = false →
        x.end_date ≤ start_d) →
      (createBooking s uid pid start_d end_d r bid).2 ≠ .error .dateConflict) := by
  have hmain : ((createBooking s uid pid start_d end_d r bid).2
      = .error .dateConflict) ↔ overlapExists s pid start_d end_d = true := by
    simp only [createBooking, hp, hu]
    rw [if_neg (by simp [happ, htype])]
    by_cases hov : overlapExists s pid start_d end_d = true
    · rw [if_pos hov]
      simpa using hov
    · rw [if_neg hov]
      constructor
      · intro hcontra
        repeat' split at hcontra
        all_goals simp_all
      · intro hcon
        exact absurd hcon hov
  refine ⟨hmain.trans (overlapExists_iff s pid start_d end_d), ?_, ?_⟩
  · intro st b hok q hinv
    obtain ⟨hbid, hbuser, hbprop, hbs, hbe, hbc, hbp, hbr, hov, hdays, hbk,
      _, _, _, _⟩ := createBooking_ok s uid pid start_d end_d r bid st b hok
    have hnool : ∀ x ∈ s.bookings, x.property = pid → x.is_cancelled = false →
        ¬ (x.start_date < end_d ∧ x.end_date > start_d) := by
      intro x hx hxp hxc hxcon
      have : overlapExists s pid start_d end_d = true :=
        (overlapExists_iff s pid start_d end_d).mpr
          ⟨x, hx, hxp, hxc, hxcon.1, hxcon.2⟩
      rw [hov] at this
      exact Bool.false_ne_true this
    intro b1 hb1 b2 hb2 hq1 hq2 hc1 hc2 hne
    rw [hbk] at hb1 hb2
    rcases List.mem_append.mp hb1 with hb1o | hb1n
    · rcases List.mem_append.mp hb2 with hb2o | hb2n
      · exact hinv b1 hb1o b2 hb2o hq1 hq2 hc1 hc2 hne
      · have hb2b : b2 = b := by simpa using hb2n
        rw [hb2b, hbe, hbs]
        have hq : q = pid := by rw [← hq2, hb2b]; exact hbprop
        subst hq
        exact hnool b1 hb1o hq1 hc1
    · have hb1b : b1 = b := by simpa using hb1n
      rcases List.mem_append.mp hb2 with hb2o | hb2n
      · rw [hb1b, hbs, hbe]
        have hq : q = pid := by rw [← hq1, hb1b]; exact hbprop
        subst hq
        intro hcon
        exact hnool b2 hb2o hq2 hc2 ⟨hcon.2, hcon.1⟩
      · have hb2b : b2 = b := by simpa using hb2n
        exact absurd (hb1b.trans hb2b.symm) hne
  · intro hend hcon
    rcases (hmain.trans (overlapExists_iff s pid start_d end_d)).mp hcon with
      ⟨x, hx, hxp, hxc, _, hxe⟩
    have := hend x hx hxp hxc
    omega

/-- Witness for claim6_date_conflict: with an active booking over days 0 to
3, a new request for days 3 to 5 raises no date conflict. -/
theorem claim6_witness :
    (createBooking exStateUnpaid 1 1 3 5 "TobiTx-w6" 12).2 ≠ .error .dateConflict :=
  (claim6_date_conflict exStateUnpaid 1 1 3 5 "TobiTx-w6" 12 exShortlet exCustomer
    rfl rfl rfl rfl).2.2 (by decide)

/-- Claim C8: top-up fails for a non-positive amount, a missing or foreign
investment, a completed investment, or an amount above the remaining
balance, leaving state unchanged; on success the amount moves from the
remaining balance to amount_paid, keeping remaining equal to total minus
paid and non-negative, and exactly when the new remaining balance is zero
the status becomes completed, the investor gains Platinum membership for 365
days and the shortlet credit is wiped. -/
theorem claim8_topup (s : State) (uid iid : Nat) (amount : Rat) (now : Int) :
    (amount ≤ 0 → topUpInvestment s uid iid amount now = (s, .error .invalidAmount)) ∧
    (¬ amount ≤ 0 →
      s.investments.find? (fun v => v.id == iid && v.investor == uid) = none →
      topUpInvestment s uid iid amount now = (s, .error .notFound)) ∧
    (∀ inv, ¬ amount ≤ 0 →
      s.investments.find? (fun v => v.id == iid && v.investor == uid) = some inv →
      (inv.status = "completed" →
        topUpInvestment s uid iid amount now = (s, .error .alreadyCompleted)) ∧
      (inv.status ≠ "completed" → inv.remaining_balance < amount →
        topUpInvestment s uid iid amount now = (s, .error .exceedsBalance)) ∧
      (inv.status ≠ "completed" → ¬ inv.remaining_balance < amount →
        (inv.remaining_balance = inv.total_price - inv.amount_paid →
          inv.remaining_balance - amount =
            inv.total_price - (inv.amount_paid + amount) ∧
          0 ≤ inv.remaining_balance - amount) ∧
        (inv.remaining_balance - amount = 0 →
          topUpInvestment s uid iid amount now =
            ((s.updateUser uid (fun u =>
                { u with membership_tier := some "Platinum",
                         membership_expires_at := some (now + 365),
                         shortlet_credit := 0 })).updateInvestment inv.id (fun _ =>
                { inv with amount_paid := inv.amount_paid + amount,
                           remaining_balance := inv.remaining_balance - amount,
                           status := "completed" }),
             .ok (inv.remaining_balance - amount, "completed"))) ∧
        (inv.remaining_balance - amount ≠ 0 →
          topUpInvestment s uid iid amount now =
            (s.updateInvestment inv.id (fun _ =>
                { inv with amount_paid := inv.amount_paid + amount,
                           remaining_balance := inv.remaining_balance - amount }),
             .ok (inv.remaining_balance - amount, inv.status))))) := by
  refine ⟨?_, ?_, ?_⟩
  · intro h
    simp only [topUpInvestment]
    rw [if_pos h]
  · intro h hn
    simp only [topUpInvestment, hn]
    rw [if_neg h]
  · intro inv hpos hf
    refine ⟨?_, ?_, ?_⟩
    · intro hcomp
      simp only [topUpInvestment, hf]
      rw [if_neg hpos, if_pos hcomp]
    · intro hcomp hexc
      simp only [topUpInvestment, hf]
      rw [if_neg hpos, if_neg hcomp, if_pos hexc]
    · intro hcomp hnl
      refine ⟨?_, ?_, ?_⟩
      · intro hrem
        constructor
        · rw [hrem]; ring
        · linarith
      · intro hz
        simp only [topUpInvestment, hf]
        rw [if_neg hpos, if_neg hcomp, if_neg hnl, if_pos hz]
      · intro hz
        simp only [topUpInvestment, hf]
        rw [if_neg hpos, if_neg hcomp, if_neg hnl, if_neg hz]

/-- Witness for claim8_topup: topping the fixture installment investment up
by its remaining 400000 completes it, grants Platinum membership and wipes
the credit. -/
theorem claim8_topup_witness :
    topUpInvestment exStateDup 3 1 400000 50 =
      ((exStateDup.updateUser 3 (fun u =>
          { u with membership_tier := some "Platinum",
                   membership_expires_at := some ((50 : Int) + 365),
                   shortlet_credit := 0 })).updateInvestment exExistingInv.id (fun _ =>
          { exExistingInv with amount_paid := exExistingInv.amount_paid + 400000,
                               remaining_balance := exExistingInv.remaining_balance - 400000,
                               status := "completed" }),
       .ok (exExistingInv.remaining_balance - 400000, "completed")) :=
  (((claim8_topup exStateDup 3 1 400000 50).2.2 exExistingInv (by norm_num) rfl).2.2
    (by decide) (by norm_num [exExistingInv])).2.1 (by norm_num [exExistingInv])

/-- Claim C5: under the database key constraints (no duplicate booking or
investment primary keys, and booking references disjoint from investment
references, as guaranteed by the distinct reference formats), applying the
webhook twice with the same transaction reference leaves the same end state
as applying it once. -/
theorem claim5_webhook_idempotent (s : State) (event r pay_status : String)
    (n1 n2 : Int)
    (hbid : (s.bookings.map Booking.id).Nodup)
    (hiid : (s.investments.map Investment.id).Nodup)
    (hcross : ∀ b ∈ s.bookings, ∀ v ∈ s.investments, b.tx_ref ≠ v.tx_ref) :
    (flutterwaveWebhook (flutterwaveWebhook s event r pay_status n1).1
        event r pay_status n2).1 =
      (flutterwaveWebhook s event r pay_status n1).1 := by
  by_cases he : event ≠ "charge.completed"
  · have hbad : ∀ (t : State) (n : Int),
        (flutterwaveWebhook t event r pay_status n).1 = t := by
      intro t n
      simp only [flutterwaveWebhook]
      rw [if_pos he]
    rw [hbad, hbad]
  · rw [not_not] at he
    subst he
    by_cases hst : pay_status ≠ "successful"
    · have hbad : ∀ (t : State) (n : Int),
          (flutterwaveWebhook t "charge.completed" r pay_status n).1 = t := by
        intro t n
        simp only [flutterwaveWebhook]
        rw [if_neg (by simp), if_pos hst]
      rw [hbad, hbad]
    · rw [not_not] at hst
      subst hst
      cases hb : s.bookings.find? (fun b => b.tx_ref == r) with
      | some b =>
        have hbmem := List.mem_of_find?_eq_some hb
        have hbtx := List.find?_some hb
        have hinone : s.investments.find? (fun v => v.tx_ref == r) = none := by
          rw [List.find?_eq_none]
          intro v hvmem
          simp only [beq_iff_eq]
          intro hvr
          refine hcross b hbmem v hvmem ?_
          rw [beq_iff_eq] at hbtx
          rw [hbtx, hvr]
        cases hpaid : b.is_paid with
        | false =>
          have hcall1 : flutterwaveWebhook s "charge.completed" r "successful" n1 =
              (s.updateBooking b.id (fun _ => { b with is_paid := true }),
               .bookingPaid) := by
            simp only [flutterwaveWebhook, hb, hpaid]
            rw [if_neg (by simp), if_neg (by simp)]
            simp
          rw [hcall1]
          have hfind2 := find?_map_single (fun x : Booking => x.tx_ref == r)
            (fun x : Booking => x.id == b.id) (fun _ => { b with is_paid := true })
            s.bookings b hb
            (fun x hx hxe => key_inj Booking.id s.bookings hbid hx hbmem
              (by simpa using hxe))
            (by simp) (by simpa using hbtx)
          simp only [flutterwaveWebhook]
          rw [if_neg (by simp), if_neg (by simp)]
          dsimp only [State.updateBooking]
          rw [hfind2]
          simp only [Bool.not_true, Bool.false_eq_true, if_false]
          simp only [webhookInvestmentStep]
          rw [hinone]
        | true =>
          have hcall : ∀ n, flutterwaveWebhook s "charge.completed" r "successful" n
              = (s, .noMatch) := by
            intro n
            simp only [flutterwaveWebhook, hb, hpaid]
            rw [if_neg (by simp), if_neg (by simp)]
            simp only [Bool.not_true, Bool.false_eq_true, if_false]
            simp only [webhookInvestmentStep]
            rw [hinone]
          rw [hcall n1]
          rw [show ((s, WebhookResult.noMatch).1 : State) = s from rfl, hcall n2]
      | none =>
        cases hv : s.investments.find? (fun v => v.tx_ref == r) with
        | none =>
          have hcall : ∀ n, flutterwaveWebhook s "charge.completed" r "successful" n
              = (s, .noMatch) := by
            intro n
            simp only [flutterwaveWebhook, hb]
            rw [if_neg (by simp), if_neg (by simp)]
            simp only [webhookInvestmentStep]
            rw [hv]
          rw [hcall n1]
          rw [show ((s, WebhookResult.noMatch).1 : State) = s from rfl, hcall n2]
        | some v =>
          have hvmem := List.mem_of_find?_eq_some hv
          have hvtx := List.find?_some hv
          by_cases hsettled : v.amount_paid < v.total_price
          · have hcall1 : flutterwaveWebhook s "charge.completed" r "successful" n1 =
                ((s.updateUser v.investor (fun u =>
                    { u with membership_tier := some "Platinum",
                             membership_expires_at := some (n1 + 365),
                             is_verified := true })).updateInvestment v.id (fun _ =>
                    { v with amount_paid := v.total_price, remaining_balance := 0,
                             status := "completed" }),
                 .investmentCompleted) := by
              simp only [flutterwaveWebhook, hb]
              rw [if_neg (by simp), if_neg (by simp)]
              simp only [webhookInvestmentStep, hv]
              rw [if_pos hsettled]
            rw [hcall1]
            have hfind2 := find?_map_single (fun x : Investment => x.tx_ref == r)
              (fun x : Investment => x.id == v.id)
              (fun _ => { v with amount_paid := v.total_price, remaining_balance := 0,
                                 status := "completed" })
              s.investments v hv
              (fun x hx hxe => key_inj Investment.id s.investments hiid hx hvmem
                (by simpa using hxe))
              (by simp) (by simpa using hvtx)
            simp only [flutterwaveWebhook]
            rw [if_neg (by simp), if_neg (by simp)]
            dsimp only [State.updateUser, State.updateInvestment]
            rw [hb]
            simp only [webhookInvestmentStep]
            rw [hfind2]
            dsimp only
            rw [if_neg (by simp)]
          · have hcall : ∀ n, flutterwaveWebhook s "charge.completed" r "successful" n
                = (s, .noMatch) := by
              intro n
              simp only [flutterwaveWebhook, hb]
              rw [if_neg (by simp), if_neg (by simp)]
              simp only [webhookInvestmentStep, hv]
              rw [if_neg hsettled]
            rw [hcall n1]
            rw [show ((s, WebhookResult.noMatch).1 : State) = s from rfl, hcall n2]

/-- Witness for claim5_webhook_idempotent: replaying the successful webhook
for the fixture unpaid booking reference leaves the once-settled state
unchanged. -/
theorem claim5_witness :
    (flutterwaveWebhook (flutterwaveWebhook exStateUnpaid "charge.completed" "t5"
        "successful" 0).1 "charge.completed" "t5" "successful" 7).1 =
      (flutterwaveWebhook exStateUnpaid "charge.completed" "t5" "successful" 0).1 :=
  claim5_webhook_idempotent exStateUnpaid "charge.completed" "t5" "successful" 0 7
    (by decide) (by decide) (by decide)

/-- The two operations of the source that can transition a stored booking
to paid: the admin mark-paid endpoint and the payment webhook. -/
inductive PayOp where
  | markPaid (booking_id : Nat)
  | webhook (event tx_ref pay_status : String) (now : Int)
deriving Repr

/-- State transition of one pay operation. -/
def applyPayOp (s : State) (op : PayOp) : State :=
  match op with
  | .markPaid bid => (markBookingAsPaid s bid).1
  | .webhook e r st n => (flutterwaveWebhook s e r st n).1

/-- Invariant: every stored copy of booking bid is paid, and no commission
row references bid. -/
def paidNoCommission (s : State) (bid : Nat) : Prop :=
  (∀ b ∈ s.bookings, b.id = bid → b.is_paid = true) ∧
  (∀ c ∈ s.commissions, c.booking ≠ bid)

/-- A paid-flag update of one row keeps every copy of booking bid paid,
provided the replacement row is itself paid when it carries id bid. -/
theorem paid_preserved_update (l : List Booking) (bid i : Nat) (bk' : Booking)
    (hpaid : ∀ b ∈ l, b.id = bid → b.is_paid = true)
    (h2 : bk'.id = bid → bk'.is_paid = true) :
    ∀ b ∈ l.map (fun x => if x.id == i then bk' else x),
      b.id = bid → b.is_paid = true := by
  intro b hbmem hbid
  rcases List.mem_map.mp hbmem with ⟨x, hx, hxe⟩
  by_cases ht : (x.id == i) = true
  · rw [if_pos ht] at hxe
    subst hxe
    exact h2 hbid
  · rw [if_neg ht] at hxe
    subst hxe
    exact hpaid x hx hbid

/-- Both pay operations preserve the invariant: they only act on bookings
that are not yet paid, and neither creates a commission for a booking that
is already paid. -/
theorem paidNoCommission_applyPayOp (s : State) (bid : Nat) (op : PayOp)
    (h : paidNoCommission s bid) : paidNoCommission (applyPayOp s op) bid := by
  obtain ⟨hpaid, hcom⟩ := h
  cases op with
  | markPaid bid2 =>
    simp only [applyPayOp, markBookingAsPaid]
    cases hfb : s.bookings.find? (fun b => b.id == bid2) with
    | none => exact ⟨hpaid, hcom⟩
    | some bk =>
      dsimp only
      have hbkmem := List.mem_of_find?_eq_some hfb
      have hbkid : bk.id = bid2 := by simpa using List.find?_some hfb
      by_cases hbp : bk.is_paid
      · rw [if_pos hbp]
        exact ⟨hpaid, hcom⟩
      · rw [if_neg hbp]
        cases hfp : s.properties.find? (fun p => p.id == bk.property) with
        | none =>
          exact ⟨paid_preserved_update s.bookings bid bk.id _ hpaid (fun _ => rfl),
            hcom⟩
        | some prop =>
          dsimp only
          refine ⟨paid_preserved_update s.bookings bid bk.id _ hpaid (fun _ => rfl),
            ?_⟩
          intro c hc
          rcases List.mem_append.mp hc with hco | hcn
          · exact hcom c hco
          · have hcc : c = ⟨prop.agent, bk.id,
                bk.total_price * ((10 : Rat) / 100), false, false⟩ := by
              simpa using hcn
            rw [hcc]
            intro heq
            exact hbp (hpaid bk hbkmem heq)
  | webhook e r st n =>
    simp only [applyPayOp, flutterwaveWebhook, webhookInvestmentStep]
    repeat' split
    all_goals first
      | exact ⟨hpaid, hcom⟩
      | exact ⟨paid_preserved_update s.bookings bid _ _ hpaid (fun _ => rfl), hcom⟩

/-- Claim C10: a booking created through the credit-funded booking operation
is already paid at creation, and no sequence of admin mark-paid and webhook
reconciliation operations afterwards ever creates a Commission referencing
it, because both operations act only on bookings that are not yet paid. -/
theorem claim10_no_commission_for_credit_bookings (s : State) (uid pid : Nat)
    (start_d end_d : Int) (r : String) (bid : Nat) (st : State) (b : Booking)
    (hok : createBooking s uid pid start_d end_d r bid = (st, .ok b))
    (hfreshb : ∀ b0 ∈ s.bookings, b0.id ≠ bid)
    (hfresh : ∀ c ∈ s.commissions, c.booking ≠ bid)
    (ops : List PayOp) :
    b.is_paid = true ∧
    ∀ c ∈ (ops.foldl applyPayOp st).commissions, c.booking ≠ bid := by
  obtain ⟨hbid, _, _, _, _, _, hbp, _, _, _, hbk, _, hcomm, _, _⟩ :=
    createBooking_ok s uid pid start_d end_d r bid st b hok
  refine ⟨hbp, ?_⟩
  have hinv : paidNoCommission st bid := by
    constructor
    · intro x hx hxid
      rw [hbk] at hx
      rcases List.mem_append.mp hx with hxo | hxn
      · exact absurd hxid (hfreshb x hxo)
      · have : x = b := by simpa using hxn
        rw [this]
        exact hbp
    · rw [hcomm]
      exact hfresh
  have hall : ∀ (l : List PayOp) (t : State), paidNoCommission t bid →
      ∀ c ∈ (l.foldl applyPayOp t).commissions, c.booking ≠ bid := by
    intro l
    induction l with
    | nil => exact fun t ht => ht.2
    | cons op rest ih =>
      exact fun t ht => ih (applyPayOp t op) (paidNoCommission_applyPayOp t bid op ht)
  exact hall ops st hinv

/-- The fixture booking created by the credit flow. -/
def exBookingNew : Booking := ⟨11, 1, 1, 0, 3, 30000, false, true, "TobiTx-w"⟩

/-- The store right after the fixture credit-funded booking creation. -/
def exStateAfterBooking : State := (createBooking exBase 1 1 0 3 "TobiTx-w" 11).1

unseal Rat.mul Rat.add Rat.sub Rat.inv in
/-- Witness for claim10_no_commission_for_credit_bookings: after creating
the fixture booking and then running mark-paid and a webhook replay on it,
no commission references it. -/
theorem claim10_witness :
    exBookingNew.is_paid = true ∧
    (([PayOp.markPaid 11,
       PayOp.webhook "charge.completed" "TobiTx-w" "successful" 9].foldl applyPayOp
        exStateAfterBooking).commissions.all
      (fun c => decide (c.booking ≠ 11))) = true := by
  have h := claim10_no_commission_for_credit_bookings exBase 1 1 0 3 "TobiTx-w" 11
    exStateAfterBooking exBookingNew (by rfl) (by simp [exBase]) (by simp [exBase])
    [PayOp.markPaid 11, PayOp.webhook "charge.completed" "TobiTx-w" "successful" 9]
  refine ⟨h.1, ?_⟩
  rw [List.all_eq_true]
  intro c hc
  simpa using h.2 c hc

end Tobi
